import Mathlib

/-!
Shallow embedding of `pyutils` (files `processutils.py` and `timeutils.py`)
and verification of its specification.

Conventions:
* Python numbers are modelled as `ℚ` (clock readings, intervals, backoff
  rates), exit codes and `errno` values as `ℤ`, captured stream contents as
  `List Nat` (byte strings).
* The environment of one `execute` call is a function `Nat → SpawnOutcome`
  giving, for the i-th `subprocess.Popen` call of the loop, either an
  `OSError` at spawn time or a created process together with its eventual
  return code and captured stdout/stderr.
* Side effects that the specification talks about (process spawns, the
  backoff sleep in `on_execute`, the randomized `delay_on_retry` sleep, the
  `time.sleep(0)` in the `finally` block, timer arming/cancelling) are
  recorded in an event trace.
-/

namespace PyUtils

/-! ## timeutils.py -/

/-- The `_STARTED` / `_STOPPED` markers of `StopWatch` (`self._state` is
`None` before the first `start()`). -/
inductive WatchState where
  | started
  | stopped
deriving DecidableEq, Repr

/-- Embedding of `timeutils.StopWatch`'s attributes.  In the source,
`_started_at` / `_stopped_at` are `None` until set by `start()` / `stop()`;
they are numbers whenever `_state` is `STARTED` / `STOPPED`. -/
structure StopWatch where
  duration : Option ℚ := none
  started_at : Option ℚ := none
  stopped_at : Option ℚ := none
  state : Option WatchState := none
deriving DecidableEq, Repr

/-- `StopWatch._delta_seconds`: `max(0.0, later - earlier)` (clamps a clock
that went backwards). -/
def delta_seconds (earlier later : ℚ) : ℚ :=
  max 0 (later - earlier)

/-- Embedding of `StopWatch.elapsed(maximum=None)`.  `nowv` is the reading
the `now()` clock would return during the call.  Raising `RuntimeError` is
modelled as `Except.error`.  (`getD 0` is never reached from states the
method accepts: a `STARTED`/`STOPPED` watch has its timestamps set.) -/
def StopWatch.elapsed (w : StopWatch) (nowv : ℚ) (maximum : Option ℚ := none) :
    Except String ℚ :=
  if w.state = some WatchState.started ∨ w.state = some WatchState.stopped then
    let e :=
      if w.state = some WatchState.stopped then
        delta_seconds (w.started_at.getD 0) (w.stopped_at.getD 0)
      else
        delta_seconds (w.started_at.getD 0) nowv
    let clamped :=
      match maximum with
      | some m => if m < e then max 0 m else e
      | none => e
    Except.ok clamped
  else
    Except.error "RuntimeError: stopwatch has not been started/stopped"

/-- `StopWatch.start` (no-op when already started; resets splits, which we do
not track, and clears `_stopped_at`). -/
def StopWatch.start (w : StopWatch) (nowv : ℚ) : StopWatch :=
  if w.state = some WatchState.started then w
  else { w with started_at := some nowv, stopped_at := none,
                state := some WatchState.started }

/-- `StopWatch.stop`: error unless started (no-op when already stopped). -/
def StopWatch.stop (w : StopWatch) (nowv : ℚ) : Except String StopWatch :=
  if w.state = some WatchState.stopped then Except.ok w
  else if w.state = some WatchState.started then
    Except.ok { w with stopped_at := some nowv, state := some WatchState.stopped }
  else Except.error "RuntimeError: stopwatch has not been started"

/-! ## processutils.py — argument handling of `execute` -/

/-- The value shapes the docstring admits for the `check_exit_code` kwarg:
a single bool, a single int, or a list of ints. -/
inductive CheckExit where
  | bool (b : Bool)
  | int (n : ℤ)
  | list (l : List ℤ)
deriving DecidableEq, Repr

/-- The keyword arguments of one `execute(*cmd, **kwargs)` call.  A field of
`some v` means the keyword was passed with value `v`; `none` means absent.
Keywords whose values `execute` never inspects (`cwd`, `process_input`,
`env_variables`, `shell`, `loglevel`, `preexec_fn`) only matter through
their presence, which is irrelevant to control flow because they are always
popped, so they are omitted.  `unknown` lists any keyword names outside the
recognized set. -/
structure ExecKwargs where
  check_exit_code : Option CheckExit := none
  delay_on_retry : Option Bool := none
  attempts : Option ℤ := none
  timeout : Option ℚ := none
  interval : Option ℚ := none
  backoff_rate : Option ℚ := none
  unknown : List String := []
deriving Repr

/-- The keys still present in `kwargs` when line 172's `if kwargs:` check
runs: every recognized key is popped, except that `interval` and
`backoff_rate` are popped only in the branch where `delay_on_retry` was NOT
passed (lines 146-151), so passing `delay_on_retry` together with either of
them leaves them in the dict. -/
def leftoverKeys (kw : ExecKwargs) : List String :=
  kw.unknown ++
    (if kw.delay_on_retry.isSome then
      (if kw.interval.isSome then ["interval"] else []) ++
        (if kw.backoff_rate.isSome then ["backoff_rate"] else [])
    else [])

/-- The configuration `execute` has assembled when the retry loop starts
(local variables after lines 146-175). -/
structure Config where
  /-- The local `interval`: `None` when `delay_on_retry` was passed
  (line 147), otherwise the popped value with default `1`. -/
  interval : Option ℚ
  /-- The local `backoff_rate` (default `2`).  In the source this name is
  unbound when `delay_on_retry` was passed; it is then never read because
  `on_execute` guards its use with `interval` being truthy, so `0` here is a
  stand-in for the unbound case. -/
  backoff_rate : ℚ
  /-- `ignore_exit_code`, set from a boolean `check_exit_code` (line 167). -/
  ignore_exit_code : Bool
  /-- The normalized list of accepted exit codes (lines 166-170). -/
  check_exit_code : List ℤ
  /-- The popped `delay_on_retry`.  When the caller did not pass it, line 149
  stored `False` in the dict, so the pop at line 158 yields `False`. -/
  delay_on_retry : Bool
  attempts : ℤ
  timeout : Option ℚ
deriving DecidableEq, Repr

/-- Embedding of lines 146-173 of `execute`: kwarg popping, defaults,
`check_exit_code` normalization, and the unknown-keyword check.
`Except.error` carries the keys of the `UnknownArgumentError`. -/
def parseExecute (kw : ExecKwargs) : Except (List String) Config :=
  let interval : Option ℚ :=
    if kw.delay_on_retry.isSome then none else some (kw.interval.getD 1)
  let backoff_rate : ℚ :=
    if kw.delay_on_retry.isSome then 0 else kw.backoff_rate.getD 2
  let delay_on_retry : Bool := kw.delay_on_retry.getD false
  let attempts : ℤ := kw.attempts.getD 1
  let cec := kw.check_exit_code.getD (CheckExit.list [0])
  let norm : Bool × List ℤ :=
    match cec with
    | CheckExit.bool b => (!b, [0])
    | CheckExit.int n => (false, [n])
    | CheckExit.list l => (false, l)
  if leftoverKeys kw = [] then
    Except.ok { interval := interval, backoff_rate := backoff_rate,
                ignore_exit_code := norm.1, check_exit_code := norm.2,
                delay_on_retry := delay_on_retry, attempts := attempts,
                timeout := kw.timeout }
  else
    Except.error (leftoverKeys kw)

/-! ## processutils.py — the retry loop of `execute` -/

/-- What the i-th `subprocess.Popen` call of the loop does: raise `OSError`,
or create a process that will exit with `returncode` after writing `stdout`
and `stderr`. -/
inductive SpawnOutcome where
  | osError (errno : ℤ)
  | ok (returncode : ℤ) (stdout stderr : List Nat)
deriving DecidableEq, Repr

/-- Observable side effects of one `execute` call, in order. -/
inductive Event where
  /-- `subprocess.Popen` created process number `idx`. -/
  | spawn (idx : Nat)
  /-- `subprocess.Popen` raised `OSError` on call number `idx`. -/
  | spawnFailed (idx : Nat)
  /-- The `time.sleep(wait_for)` in `on_execute` (interval backoff path). -/
  | backoffSleep (secs : ℚ)
  /-- `threading.Timer(...).start()` in `on_execute`. -/
  | armTimer
  /-- `shared_data[1].cancel()` in `on_completion`. -/
  | cancelTimer
  /-- The randomized `time.sleep(random.randint(20, 200) / 100.0)` taken when
  `delay_on_retry` is truthy (line 241); the amount is abstracted. -/
  | jitterSleep
  /-- The `time.sleep(0)` in the `finally` block (line 250). -/
  | sleepZero
deriving DecidableEq, Repr

/-- How one `execute` call ends. -/
inductive ExecOutcome where
  /-- `UnknownArgumentError` raised at line 173, before the loop. -/
  | unknownArgumentError (keys : List String)
  /-- Line 217's `return result`: the `(stdout, stderr)` pair. -/
  | success (stdout stderr : List Nat)
  /-- `ProcessExecutionError` escaping the final attempt (line 237),
  carrying its `exit_code`, `stdout` and `stderr` fields. -/
  | raisedPEE (exit_code : ℤ) (stdout stderr : List Nat)
  /-- `OSError` escaping the final attempt. -/
  | raisedOS (errno : ℤ)
  /-- The `while` loop was never entered (or exhausted without a `return` or
  `raise`): the function falls through and returns `None`. -/
  | noneResult
deriving DecidableEq, Repr

/-- The wait computed by `on_execute` (lines 125-126) and `_backoff_sleep`
(lines 258-259): `max(0, interval * backoff_rate ** attemptNumber)`. -/
def backoffWait (attemptNumber : Nat) (interval backoffRate : ℚ) : ℚ :=
  max 0 (interval * backoffRate ^ attemptNumber)

/-- What the `on_timeout` callback (lines 113-117), run when an armed
watchdog timer fires, ends up doing. -/
inductive TimerFireOutcome where
  /-- A `NameError` escapes the callback before `proc.send_signal` runs. -/
  | raisedNameError
  /-- Lines 116-117 as written: record the process and signal it. -/
  | sentSignal (proc : ℤ)
deriving DecidableEq, Repr

/-- The names `on_timeout`'s body reads that actually resolve: its parameter
`proc`, the module global `LOG`, and the enclosing `execute` locals `cmd`,
`timeout` and `shared_data`.  The body also reads `sig_end` (lines 115 and
117), but that name is bound nowhere: `execute` never pops a `sig_end` or
termination-signal option and the module has no such global. -/
def onTimeoutScope : List String :=
  ["proc", "LOG", "cmd", "timeout", "shared_data"]

/-- Embedding of `on_timeout` (lines 113-117), with `proc` standing for the
process handle (identified by its index).  The first statement, the
`LOG.warning` call, evaluates `sig_end` while building its mapping at line
115; resolving an unbound name raises `NameError`, so when the timer fires
the callback dies before `shared_data[2] = proc` and
`proc.send_signal(sig_end)` are reached — a fired watchdog never signals
the process. -/
def on_timeout (proc : ℤ) : TimerFireOutcome :=
  if "sig_end" ∈ onTimeoutScope then TimerFireOutcome.sentSignal proc
  else TimerFireOutcome.raisedNameError

/-- One pass of `while attempts > 0` (lines 178-250), recursing on the
remaining attempt budget.  `idx` numbers the `Popen` calls so far, `prev` is
`shared_data[0]` (attempts already made; incremented only inside
`on_execute`, i.e. only after a successful `Popen`), `timerSet` records
whether `shared_data[1]` ever received a `threading.Timer` (it is never put
back to `None`, so once set, every `on_completion` calls `cancel()`).
`fuel = 0` corresponds to `attempts > 0` failing, after which `execute`
falls through and returns `None`. -/
def execLoop (env : Nat → SpawnOutcome) (cfg : Config) :
    Nat → Nat → Nat → Bool → List Event × ExecOutcome
  | 0, _, _, _ => ([], ExecOutcome.noneResult)
  | fuel + 1, idx, prev, timerSet =>
    match env idx with
    | SpawnOutcome.osError e =>
      -- Popen itself raised: on_execute and on_completion never run.
      if fuel = 0 then
        ([Event.spawnFailed idx, Event.sleepZero], ExecOutcome.raisedOS e)
      else
        let retryEvts :=
          (if cfg.delay_on_retry then [Event.jitterSleep] else []) ++
            [Event.sleepZero]
        let rest := execLoop env cfg fuel (idx + 1) prev timerSet
        (Event.spawnFailed idx :: retryEvts ++ rest.1, rest.2)
    | SpawnOutcome.ok rc sout serr =>
      -- on_execute: sleep if this is not the first try and interval is truthy
      let sleepEvts :=
        match cfg.interval with
        | some i =>
          if prev ≠ 0 ∧ i ≠ 0 then
            [Event.backoffSleep (backoffWait prev i cfg.backoff_rate)]
          else []
        | none => []
      let prevNext := prev + 1
      -- on_execute: arm the timer when `timeout` is truthy
      let armed : List Event × Bool :=
        match cfg.timeout with
        | some t => if t ≠ 0 then ([Event.armTimer], true) else ([], timerSet)
        | none => ([], timerSet)
      -- communicate, then on_completion in the inner finally
      let cancelEvts := if armed.2 then [Event.cancelTimer] else []
      let preEvts := Event.spawn idx :: sleepEvts ++ armed.1 ++ cancelEvts
      if cfg.ignore_exit_code = false ∧ rc ∉ cfg.check_exit_code then
        -- ProcessExecutionError raised, caught by the except at line 218
        if fuel = 0 then
          (preEvts ++ [Event.sleepZero], ExecOutcome.raisedPEE rc sout serr)
        else
          let retryEvts :=
            (if cfg.delay_on_retry then [Event.jitterSleep] else []) ++
              [Event.sleepZero]
          let rest := execLoop env cfg fuel (idx + 1) prevNext armed.2
          (preEvts ++ retryEvts ++ rest.1, rest.2)
      else
        (preEvts ++ [Event.sleepZero], ExecOutcome.success sout serr)

/-- Embedding of `execute(*cmd, **kwargs)`: parse the keyword arguments,
then run the retry loop `attempts` times (`while attempts > 0` on an integer
counter runs `attempts.toNat` iterations). -/
def execute (env : Nat → SpawnOutcome) (kw : ExecKwargs) :
    List Event × ExecOutcome :=
  match parseExecute kw with
  | Except.error keys => ([], ExecOutcome.unknownArgumentError keys)
  | Except.ok cfg => execLoop env cfg cfg.attempts.toNat 0 0 false

/-- Number of processes created during a call. -/
def countSpawns (tr : List Event) : Nat :=
  (tr.filter fun e => match e with | Event.spawn _ => true | _ => false).length

/-- Whether the interval/backoff strategy slept at least once. -/
def hasBackoffSleep (tr : List Event) : Bool :=
  tr.any fun e => match e with | Event.backoffSleep _ => true | _ => false

/-- Whether the `delay_on_retry` jitter strategy slept at least once. -/
def hasJitterSleep (tr : List Event) : Bool :=
  tr.any fun e => match e with | Event.jitterSleep => true | _ => false

/-! ## processutils.py — the `retry` decorator -/

/-- What `retry(exceptions, interval, retries, backoff_rate)` itself does
before any work is invoked.  Line 270 checks `retries < 1`; the `raise` at
line 271 evaluates `_('Retries must be ...')`, but the name `_` is bound
nowhere in the module (no gettext import), so what is actually raised is a
`NameError`, not the intended `ValueError`. -/
inductive RetrySetup where
  | raisedNameError
  | decorator (interval : ℚ) (retries : ℤ) (backoff_rate : ℚ)
deriving DecidableEq, Repr

/-- Embedding of the eager part of `retry` (lines 252-274): validation
happens at decoration-configuration time, before the wrapped work runs. -/
def retry (interval : ℚ := 1) (retries : ℤ := 3) (backoff_rate : ℚ := 2) :
    RetrySetup :=
  if retries < 1 then RetrySetup.raisedNameError
  else RetrySetup.decorator interval retries backoff_rate

/-- Embedding of `_backoff_sleep` (lines 257-261): the same wait formula as
`on_execute`, converted to milliseconds for the `retrying` library. -/
def retryBackoffSleepMs (interval backoff_rate : ℚ)
    (previous_attempt_number : Nat) : ℚ :=
  backoffWait previous_attempt_number interval backoff_rate * 1000

/-! ## Theorems -/

/-- C1: for a command that exits 1 on every run, `execute` with `attempts=3`
and `check_exit_code=[0]` spawns exactly 3 processes, sleeps twice (the
default interval backoff), and ends with a `ProcessExecutionError` whose
`exit_code` is 1 carrying the third run's output — the first two attempts'
failures are consumed by the loop and never reach the caller. -/
theorem execute_exit1_three_attempts (so se : Nat → List Nat) :
    execute (fun i => SpawnOutcome.ok 1 (so i) (se i))
        { attempts := some 3, check_exit_code := some (CheckExit.list [0]) } =
      ([Event.spawn 0, Event.sleepZero,
        Event.spawn 1, Event.backoffSleep 2, Event.sleepZero,
        Event.spawn 2, Event.backoffSleep 4, Event.sleepZero],
       ExecOutcome.raisedPEE 1 (so 2) (se 2)) ∧
    countSpawns
      [Event.spawn 0, Event.sleepZero,
       Event.spawn 1, Event.backoffSleep 2, Event.sleepZero,
       Event.spawn 2, Event.backoffSleep 4, Event.sleepZero] = 3 :=
  ⟨by norm_num [execute, parseExecute, leftoverKeys, execLoop, backoffWait],
    rfl⟩

/-- C2 counterexample: `execute` with `attempts=0` does NOT raise any error:
the `while` loop is never entered, zero spawns occur, and the function falls
through, returning `None` — there is no `attempts < 1` validation in the
source. -/
theorem execute_zero_attempts_returns_none :
    execute (fun _ => SpawnOutcome.ok 0 [] []) { attempts := some 0 } =
      ([], ExecOutcome.noneResult) ∧
    ¬∃ keys, (execute (fun _ => SpawnOutcome.ok 0 [] [])
        { attempts := some 0 }).2 = ExecOutcome.unknownArgumentError keys := by
  refine ⟨rfl, ?_⟩
  rintro ⟨keys, h⟩
  exact ExecOutcome.noConfusion h

/-- C2 amended: for `attempts ≤ 0` (and keyword arguments passing the
unknown-keyword check), `execute` performs zero spawns and returns `None`;
no configuration error is raised. -/
theorem execute_nonpositive_attempts (env : Nat → SpawnOutcome)
    (kw : ExecKwargs) (a : ℤ) (ha : kw.attempts = some a) (hle : a ≤ 0)
    (hkw : leftoverKeys kw = []) :
    execute env kw = ([], ExecOutcome.noneResult) := by
  unfold execute parseExecute
  have hz : a.toNat = 0 := Int.toNat_of_nonpos hle
  simp [hkw, ha, hz, execLoop]

/-- Witness for the amended C2 theorem at `attempts = 0`. -/
theorem execute_nonpositive_attempts_witness :
    ExecKwargs.attempts { attempts := some 0 } = some 0 ∧ (0 : ℤ) ≤ 0 ∧
      leftoverKeys { attempts := some 0 } = [] ∧
      execute (fun _ => SpawnOutcome.ok 0 [] []) { attempts := some 0 } =
        ([], ExecOutcome.noneResult) :=
  ⟨rfl, by decide, rfl,
    execute_nonpositive_attempts (fun _ => SpawnOutcome.ok 0 [] [])
      { attempts := some 0 } 0 rfl (by decide) rfl⟩

/-- C3 counterexample: with the default `interval=1`, `backoff_rate=2`, the
backoff sleep taken for the second attempt is
`backoffWait 1 1 2 = interval * backoff_rate ^ 1 = 2`, not
`interval * backoff_rate ^ 0 = interval = 1` as the claim states: the
exponent `shared_data[0]` is already 1 when the second attempt runs. -/
theorem execute_second_attempt_sleep_exponent :
    execute (fun _ => SpawnOutcome.ok 1 [] [])
        { attempts := some 2, check_exit_code := some (CheckExit.list [0]) } =
      ([Event.spawn 0, Event.sleepZero, Event.spawn 1,
        Event.backoffSleep (backoffWait 1 1 2), Event.sleepZero],
       ExecOutcome.raisedPEE 1 [] []) ∧
    backoffWait 1 1 2 = 2 ∧ backoffWait 1 1 2 ≠ 1 :=
  ⟨rfl, by norm_num [backoffWait], by norm_num [backoffWait]⟩

/-- C3 amended: no wait occurs before the first attempt, and the wait for
the (n+2)-th attempt is `max(0, interval * backoff_rate^(n+1))`: the
exponent starts at 1 for the second attempt (so the wait before the second
attempt is `interval * backoff_rate`, not `interval`). -/
theorem execute_backoff_exponent_starts_at_one (so se : Nat → List Nat)
    (i b : ℚ) (hi : i ≠ 0) :
    execute (fun k => SpawnOutcome.ok 1 (so k) (se k))
        { attempts := some 3, check_exit_code := some (CheckExit.list [0]),
          interval := some i, backoff_rate := some b } =
      ([Event.spawn 0, Event.sleepZero,
        Event.spawn 1, Event.backoffSleep (backoffWait 1 i b), Event.sleepZero,
        Event.spawn 2, Event.backoffSleep (backoffWait 2 i b),
        Event.sleepZero],
       ExecOutcome.raisedPEE 1 (so 2) (se 2)) := by
  norm_num [execute, parseExecute, leftoverKeys, execLoop, hi]

/-- Witness for the amended C3 theorem at `interval=1`, `backoff_rate=2`. -/
theorem execute_backoff_exponent_starts_at_one_witness :
    (1 : ℚ) ≠ 0 ∧
    execute (fun k => SpawnOutcome.ok 1 ((fun _ => []) k) ((fun _ => []) k))
        { attempts := some 3, check_exit_code := some (CheckExit.list [0]),
          interval := some 1, backoff_rate := some 2 } =
      ([Event.spawn 0, Event.sleepZero,
        Event.spawn 1, Event.backoffSleep (backoffWait 1 1 2), Event.sleepZero,
        Event.spawn 2, Event.backoffSleep (backoffWait 2 1 2),
        Event.sleepZero],
       ExecOutcome.raisedPEE 1 [] []) :=
  ⟨one_ne_zero,
    execute_backoff_exponent_starts_at_one (fun _ => []) (fun _ => []) 1 2
      one_ne_zero⟩

/-- C5 (code bug evaluation): `retry` with `retries=0` raises eagerly, at
configuration time, but what is raised is a `NameError` — line 271 evaluates
the unbound name `_` while building the intended `ValueError` message. -/
theorem retry_zero_retries_raises_name_error :
    retry 1 0 2 = RetrySetup.raisedNameError := rfl

/-- C6: `check_exit_code=False` sets `ignore_exit_code`, so any return code
succeeds and the captured `(stdout, stderr)` is returned unchanged; a
boolean `check_exit_code` normalizes to `ignore_exit_code = not b` with
accepted set `[0]`, and an integer normalizes to the one-element list. -/
theorem execute_check_exit_code_normalization (rc : ℤ) (so se : List Nat) :
    execute (fun _ => SpawnOutcome.ok rc so se)
        { check_exit_code := some (CheckExit.bool false) } =
      ([Event.spawn 0, Event.sleepZero], ExecOutcome.success so se) ∧
    (∀ b : Bool, ∃ cfg,
      parseExecute { check_exit_code := some (CheckExit.bool b) } =
          Except.ok cfg ∧
        cfg.ignore_exit_code = !b ∧ cfg.check_exit_code = [0]) ∧
    (∀ n : ℤ, ∃ cfg,
      parseExecute { check_exit_code := some (CheckExit.int n) } =
          Except.ok cfg ∧
        cfg.ignore_exit_code = false ∧ cfg.check_exit_code = [n]) :=
  ⟨rfl, fun _ => ⟨_, rfl, rfl, rfl⟩, fun _ => ⟨_, rfl, rfl, rfl⟩⟩

/-- C7: the shared backoff wait `max(0, interval * backoffRate^n)` (used by
`on_execute` in `execute` and by `_backoff_sleep` in the `retry` decorator)
is never negative, and is non-decreasing in the attempt number whenever
`backoffRate ≥ 1`. -/
theorem backoffWait_nonneg_and_monotone (n : Nat) (i b : ℚ)
    (hi : 0 ≤ i) (hb : 0 ≤ b) :
    0 ≤ backoffWait n i b ∧
      (1 ≤ b → backoffWait n i b ≤ backoffWait (n + 1) i b) := by
  refine ⟨le_max_left 0 _, fun h1 => ?_⟩
  unfold backoffWait
  apply max_le_max le_rfl
  exact mul_le_mul_of_nonneg_left (pow_le_pow_right₀ h1 (Nat.le_succ n)) hi

/-- Witness for C7 at `n=0`, `interval=1`, `backoffRate=2`. -/
theorem backoffWait_nonneg_and_monotone_witness :
    (0 : ℚ) ≤ 1 ∧ (0 : ℚ) ≤ 2 ∧
      (0 ≤ backoffWait 0 1 2 ∧
        (1 ≤ (2 : ℚ) → backoffWait 0 1 2 ≤ backoffWait (0 + 1) 1 2)) :=
  ⟨zero_le_one, zero_le_two,
    backoffWait_nonneg_and_monotone 0 1 2 zero_le_one zero_le_two⟩

/-- C8: any unrecognized keyword name makes `execute` raise
`UnknownArgumentError` before the loop starts: the event trace is empty, so
zero processes are spawned. -/
theorem execute_unknown_kwarg_fail_fast (env : Nat → SpawnOutcome)
    (kw : ExecKwargs) (h : kw.unknown ≠ []) :
    execute env kw =
        ([], ExecOutcome.unknownArgumentError (leftoverKeys kw)) ∧
      countSpawns [] = 0 := by
  have hlo : leftoverKeys kw ≠ [] := by
    unfold leftoverKeys
    intro hc
    exact h (List.append_eq_nil.mp hc).1
  refine ⟨?_, rfl⟩
  unfold execute parseExecute
  simp [hlo]

/-- Witness for C8 with the unrecognized keyword name "bogus". -/
theorem execute_unknown_kwarg_fail_fast_witness :
    ExecKwargs.unknown { unknown := ["bogus"] } ≠ [] ∧
      (execute (fun _ => SpawnOutcome.ok 0 [] []) { unknown := ["bogus"] } =
          ([], ExecOutcome.unknownArgumentError
            (leftoverKeys { unknown := ["bogus"] })) ∧
        countSpawns [] = 0) :=
  ⟨by simp, execute_unknown_kwarg_fail_fast (fun _ => SpawnOutcome.ok 0 [] [])
    { unknown := ["bogus"] } (by simp)⟩

/-- Membership in an if-then-else of lists, split by the condition. -/
theorem mem_ite_list {α : Type} {c : Prop} [Decidable c] (a : α)
    (l1 l2 : List α) :
    (a ∈ if c then l1 else l2) ↔ (c ∧ a ∈ l1) ∨ (¬c ∧ a ∈ l2) := by
  split_ifs with h <;> simp [h]

/-- First projection commutes with if-then-else. -/
theorem ite_fst {α β : Type} {c : Prop} [Decidable c] (x y : α × β) :
    (if c then x else y).1 = if c then x.1 else y.1 := by
  split_ifs <;> rfl

/-- Second projection commutes with if-then-else. -/
theorem ite_snd {α β : Type} {c : Prop} [Decidable c] (x y : α × β) :
    (if c then x else y).2 = if c then x.2 else y.2 := by
  split_ifs <;> rfl

/-- When the popped `delay_on_retry` is false, the loop never takes the
randomized jitter sleep. -/
theorem execLoop_no_jitter_of_not_delay (env : Nat → SpawnOutcome)
    (cfg : Config) (h : cfg.delay_on_retry = false) :
    ∀ fuel idx prev ts,
      Event.jitterSleep ∉ (execLoop env cfg fuel idx prev ts).1 := by
  intro fuel
  induction fuel with
  | zero => intro idx prev ts; simp [execLoop]
  | succ n ih =>
    intro idx prev ts
    have ih1 := ih (idx + 1) prev ts
    have ih2 := ih (idx + 1) (prev + 1) ts
    have ih3 := ih (idx + 1) (prev + 1) true
    clear ih
    rw [execLoop]
    rcases henv : env idx with e | ⟨rc, sout, serr⟩ <;>
      rcases hci : cfg.interval with _ | i <;>
      rcases hct : cfg.timeout with _ | t <;>
      (try by_cases ht0 : t = 0) <;>
      by_cases hn : n = 0 <;>
      simp_all [List.mem_append, mem_ite_list, ite_fst, ite_snd]

/-- When the local `interval` is `None` (the `delay_on_retry` branch of
lines 146-147), the loop never takes an interval backoff sleep. -/
theorem execLoop_no_backoff_of_no_interval (env : Nat → SpawnOutcome)
    (cfg : Config) (h : cfg.interval = none) :
    ∀ fuel idx prev ts s,
      Event.backoffSleep s ∉ (execLoop env cfg fuel idx prev ts).1 := by
  intro fuel
  induction fuel with
  | zero => intro idx prev ts s; simp [execLoop]
  | succ n ih =>
    intro idx prev ts s
    have ih1 := ih (idx + 1) prev ts s
    have ih2 := ih (idx + 1) (prev + 1) ts s
    have ih3 := ih (idx + 1) (prev + 1) true s
    clear ih
    rw [execLoop]
    rcases henv : env idx with e | ⟨rc, sout, serr⟩ <;>
      rcases hct : cfg.timeout with _ | t <;>
      (try by_cases ht0 : t = 0) <;>
      by_cases hn : n = 0 <;>
      simp_all [List.mem_append, mem_ite_list, ite_fst, ite_snd]

/-- The branching at lines 146-151 makes the two wait strategies mutually
exclusive at configuration time: a parsed configuration has `interval = None`
(when `delay_on_retry` was passed) or `delay_on_retry = False` (when it was
not). -/
theorem parseExecute_strategy_exclusive (kw : ExecKwargs) (cfg : Config)
    (h : parseExecute kw = Except.ok cfg) :
    cfg.interval = none ∨ cfg.delay_on_retry = false := by
  cases hd : kw.delay_on_retry with
  | none =>
    right
    simp [parseExecute, hd] at h
    split at h
    · cases h; rfl
    · cases h
  | some b =>
    left
    simp [parseExecute, hd] at h
    split at h
    · cases h; rfl
    · cases h

/-- `hasJitterSleep` in terms of membership. -/
theorem hasJitterSleep_eq_true (tr : List Event) :
    hasJitterSleep tr = true ↔ Event.jitterSleep ∈ tr := by
  simp only [hasJitterSleep, List.any_eq_true]
  constructor
  · rintro ⟨e, he, hm⟩
    cases e <;> simp_all
  · intro hm
    exact ⟨_, hm, rfl⟩

/-- `hasBackoffSleep` in terms of membership. -/
theorem hasBackoffSleep_eq_true (tr : List Event) :
    hasBackoffSleep tr = true ↔ ∃ s, Event.backoffSleep s ∈ tr := by
  simp only [hasBackoffSleep, List.any_eq_true]
  constructor
  · rintro ⟨e, he, hm⟩
    cases e <;> simp_all
    exact ⟨_, he⟩
  · rintro ⟨s, hm⟩
    exact ⟨_, hm, rfl⟩

/-- C4 counterexample: with `delay_on_retry=False` passed explicitly,
`execute` retries (2 spawns on a failing command) but NEITHER wait strategy
sleeps: `interval` is set to `None` because the `delay_on_retry` keyword is
present, and the jitter sleep is disabled because its value is false — so
"never neither" is violated. -/
theorem execute_explicit_delay_false_no_waits :
    execute (fun _ => SpawnOutcome.ok 1 [] [])
        { delay_on_retry := some false, attempts := some 2 } =
      ([Event.spawn 0, Event.sleepZero, Event.spawn 1, Event.sleepZero],
       ExecOutcome.raisedPEE 1 [] []) ∧
    countSpawns
        [Event.spawn 0, Event.sleepZero, Event.spawn 1, Event.sleepZero] =
      2 ∧
    hasBackoffSleep
        [Event.spawn 0, Event.sleepZero, Event.spawn 1, Event.sleepZero] =
      false ∧
    hasJitterSleep
        [Event.spawn 0, Event.sleepZero, Event.spawn 1, Event.sleepZero] =
      false :=
  ⟨rfl, rfl, rfl, rfl⟩

/-- C4 amended: at most one retry-wait strategy is active per `execute`
call — the interval backoff and the jitter sleep never both occur in one
call's trace (but "never neither" does not hold, see the counterexample). -/
theorem execute_wait_strategies_never_both (env : Nat → SpawnOutcome)
    (kw : ExecKwargs) (tr : List Event) (out : ExecOutcome)
    (h : execute env kw = (tr, out)) :
    ¬(hasBackoffSleep tr = true ∧ hasJitterSleep tr = true) := by
  rintro ⟨hb, hj⟩
  obtain ⟨s, hbs⟩ := (hasBackoffSleep_eq_true tr).mp hb
  have hjs := (hasJitterSleep_eq_true tr).mp hj
  unfold execute at h
  cases hp : parseExecute kw with
  | error keys =>
    rw [hp] at h
    have htr : ([] : List Event) = tr := congrArg Prod.fst h
    rw [← htr] at hbs
    simp at hbs
  | ok cfg =>
    rw [hp] at h
    have htr : tr = (execLoop env cfg cfg.attempts.toNat 0 0 false).1 :=
      congrArg Prod.fst h.symm
    rcases parseExecute_strategy_exclusive kw cfg hp with hci | hd
    · exact execLoop_no_backoff_of_no_interval env cfg hci
        cfg.attempts.toNat 0 0 false s (htr ▸ hbs)
    · exact execLoop_no_jitter_of_not_delay env cfg hd
        cfg.attempts.toNat 0 0 false (htr ▸ hjs)

/-- Witness for the amended C4 theorem on a default single-attempt call. -/
theorem execute_wait_strategies_never_both_witness :
    execute (fun _ => SpawnOutcome.ok 0 [] []) {} =
        ([Event.spawn 0, Event.sleepZero], ExecOutcome.success [] []) ∧
      ¬(hasBackoffSleep [Event.spawn 0, Event.sleepZero] = true ∧
        hasJitterSleep [Event.spawn 0, Event.sleepZero] = true) :=
  ⟨rfl, execute_wait_strategies_never_both (fun _ => SpawnOutcome.ok 0 [] [])
    {} [Event.spawn 0, Event.sleepZero] (ExecOutcome.success [] []) rfl⟩

/-- C9 (code bug evaluation): when the armed watchdog timer fires, the
`on_timeout` callback raises `NameError` — `sig_end` is outside every scope
the body can resolve against — so it never reaches `proc.send_signal`: a
fired watchdog never sends the termination signal, refuting the claim's
"it fires and sends the termination signal" arm. -/
theorem on_timeout_fires_without_signalling (proc : ℤ) :
    on_timeout proc = TimerFireOutcome.raisedNameError ∧
      ∀ q, on_timeout proc ≠ TimerFireOutcome.sentSignal q :=
  ⟨by simp [on_timeout, onTimeoutScope],
    fun q h => by simp [on_timeout, onTimeoutScope] at h⟩

/-- C10: for a started or stopped stopwatch, `elapsed` returns a
non-negative number of seconds even when the clock reading went backwards
(the delta is clamped to 0), and with a `maximum` argument the result never
exceeds `max 0 maximum`. -/
theorem stopwatch_elapsed_nonneg_and_clamped (w : StopWatch) (nowv : ℚ)
    (m : Option ℚ)
    (h : w.state = some WatchState.started ∨
      w.state = some WatchState.stopped) :
    ∃ e, w.elapsed nowv m = Except.ok e ∧ 0 ≤ e ∧
      ∀ q, m = some q → e ≤ max 0 q := by
  unfold StopWatch.elapsed
  rw [if_pos h]
  have h0 : (0 : ℚ) ≤ if w.state = some WatchState.stopped
      then delta_seconds (w.started_at.getD 0) (w.stopped_at.getD 0)
      else delta_seconds (w.started_at.getD 0) nowv := by
    split <;> exact le_max_left 0 _
  cases m with
  | none => exact ⟨_, rfl, h0, fun q hq => by cases hq⟩
  | some q =>
    by_cases hc : q < (if w.state = some WatchState.stopped
        then delta_seconds (w.started_at.getD 0) (w.stopped_at.getD 0)
        else delta_seconds (w.started_at.getD 0) nowv)
    · refine ⟨max 0 q, ?_, le_max_left 0 q, fun r hr => ?_⟩
      · simp [hc]
      · cases hr
        exact le_rfl
    · refine ⟨_, ?_, h0, fun r hr => ?_⟩
      · simp [hc]
      · cases hr
        exact le_trans (not_lt.mp hc) (le_max_right 0 q)

/-- Witness for C10: a started watch queried with a clock reading that went
backwards (started at 3, now 1) and `maximum = 10`. -/
theorem stopwatch_elapsed_nonneg_and_clamped_witness :
    (({ started_at := some 3, state := some WatchState.started } :
        StopWatch).state = some WatchState.started ∨
      ({ started_at := some 3, state := some WatchState.started } :
        StopWatch).state = some WatchState.stopped) ∧
    (∃ e, ({ started_at := some 3, state := some WatchState.started } :
        StopWatch).elapsed 1 (some 10) = Except.ok e ∧ 0 ≤ e ∧
      ∀ q, (some (10 : ℚ)) = some q → e ≤ max 0 q) :=
  ⟨Or.inl rfl,
    stopwatch_elapsed_nonneg_and_clamped
      { started_at := some 3, state := some WatchState.started } 1 (some 10)
      (Or.inl rfl)⟩

end PyUtils
